import Mathlib

/-!
# A shallow embedding of `pychecker/pychecker.py`

This file embeds the data model and the formatting pipeline of the
`pychecker` debugging library in Lean 4 and proves the behavioural
properties stated about it.

Modelling conventions:
* Python strings are Lean `String`s; `str.splitlines()` is modelled by
  `pySplitlines` (the source only ever splits on the newline character).
* Python values are an abstract type `α`; the configured output sink is an
  abstract value of type `σ` (only the strings passed to it are observed).
* Fallible Python code (expressions that can raise `IndexError`, and the
  `NoAvailableSourceError` control flow) is modelled with `Option`/`Except`.
* The external collaborators (the `executing`/`asttokens` source
  resolver, `inspect`, `datetime`, `os.path`) are modelled as an
  environment record `CallEnv` read by the pipeline.
-/

/-- The single quote character, `chr 39`. -/
def squote : Char := Char.ofNat 39

/-- The double quote character, `chr 34`. -/
def dquote : Char := Char.ofNat 34

/-- Python `str.splitlines()` on a list of characters: split on newline,
a trailing newline does not create a final empty line. -/
def pySplitlinesList : List Char → List (List Char)
  | [] => []
  | c :: cs =>
    if c = '\n' then [] :: pySplitlinesList cs
    else
      match pySplitlinesList cs with
      | [] => [[c]]
      | l :: ls => (c :: l) :: ls

/-- Python `str.splitlines()`. -/
def pySplitlines (s : String) : List String :=
  (pySplitlinesList s.data).map String.mk

/-- Python `str.splitlines(True)` (keep line endings) on characters. -/
def pySplitlinesKeepList : List Char → List (List Char)
  | [] => []
  | c :: cs =>
    if c = '\n' then ['\n'] :: pySplitlinesKeepList cs
    else
      match pySplitlinesKeepList cs with
      | [] => [[c]]
      | l :: ls => (c :: l) :: ls

/-- `' ' * n` -/
def spaces (n : Nat) : String := String.mk (List.replicate n ' ')

/-- Body of `prefix_lines_after_first` on lists of characters:
`lines = string.splitlines(True); lines[i] = prefix + lines[i] (i ≥ 1)`,
then concatenate. -/
def pfxLinesAfterFirstList (p : List Char) : List (List Char) → List Char
  | [] => []
  | l :: ls => l ++ (ls.map (fun line => p ++ line)).flatten

/-- `prefix_lines_after_first(prefix, string)` from the source: every line
after the first is prefixed with `p`, line endings kept. -/
def pfx_lines_after_first (p s : String) : String :=
  String.mk (pfxLinesAfterFirstList p.data (pySplitlinesKeepList s.data))

/-- `indented_lines(prefix, string)` from the source:
`lines = string.splitlines()`; the first line gets the prefix, every later
line gets a run of spaces of the prefix's length.  `string.splitlines()`
is empty for the empty string, in which case `lines[0]` raises
`IndexError`, modelled as `none`. -/
def indented_lines (p s : String) : Option (List String) :=
  match pySplitlines s with
  | [] => none
  | l :: ls => some ((p ++ l) :: ls.map (fun line => spaces p.length ++ line))

/-- `format_pair(prefix, arg, value)` from the source.  `value[0]` /
`value[-1]` raise `IndexError` on an empty value, modelled as `none`. -/
def format_pair (p arg value : String) : Option String :=
  match indented_lines p arg with
  | none => none
  | some arg_lines =>
    let value_pfx := arg_lines.getLastD "" ++ ": "
    match value.data.head?, value.data.getLast? with
    | some c0, some cl =>
      -- looks_like_a_string = value[0] + value[-1] in ["''", '""']
      let value2 :=
        if (c0 = squote ∧ cl = squote) ∨ (c0 = dquote ∧ cl = dquote)
        then pfx_lines_after_first " " value else value
      match indented_lines value_pfx value2 with
      | none => none
      | some value_lines =>
        some (String.intercalate "\n" (arg_lines.dropLast ++ value_lines))
    | _, _ => none

/-! ## Basic lemmas about the line-splitting model -/

theorem string_eq_empty_of_data_nil (s : String) (h : s.data = []) : s = "" := by
  cases s with
  | mk l => cases h; rfl

theorem pySplitlinesList_cons_ne_nil (c : Char) (cs : List Char) :
    pySplitlinesList (c :: cs) ≠ [] := by
  unfold pySplitlinesList
  split
  · simp
  · split <;> simp

theorem pySplitlines_ne_nil (s : String) (h : s ≠ "") :
    pySplitlines s ≠ [] := by
  have hd : s.data ≠ [] := fun hd => h (string_eq_empty_of_data_nil s hd)
  unfold pySplitlines
  cases hcs : s.data with
  | nil => exact absurd hcs hd
  | cons c cs => simpa using pySplitlinesList_cons_ne_nil c cs

theorem pySplitlinesKeepList_cons (c : Char) (cs : List Char) :
    ∃ t ls, pySplitlinesKeepList (c :: cs) = (c :: t) :: ls := by
  unfold pySplitlinesKeepList
  split
  · rename_i hc
    subst hc
    exact ⟨[], pySplitlinesKeepList cs, rfl⟩
  · split
    · exact ⟨[], [], rfl⟩
    · rename_i l ls _
      exact ⟨l, ls, rfl⟩

theorem pfx_lines_after_first_ne_empty (p s : String) (h : s ≠ "") :
    pfx_lines_after_first p s ≠ "" := by
  have hd : s.data ≠ [] := fun hd => h (string_eq_empty_of_data_nil s hd)
  cases hcs : s.data with
  | nil => exact absurd hcs hd
  | cons c cs =>
    obtain ⟨t, ls, hk⟩ := pySplitlinesKeepList_cons c cs
    intro he
    have : (pfx_lines_after_first p s).data = "".data := by rw [he]
    rw [pfx_lines_after_first, hcs, hk] at this
    simp [pfxLinesAfterFirstList] at this

theorem indented_lines_of_ne_empty (p s : String) (h : s ≠ "") :
    ∃ lines, indented_lines p s = some lines := by
  have := pySplitlines_ne_nil s h
  unfold indented_lines
  cases hl : pySplitlines s with
  | nil => exact absurd hl this
  | cons l ls => exact ⟨_, rfl⟩

/-! ## The debug session and its environment -/

/-- `self.prefix`: either a plain string or a zero-argument callable
producing one (see `call_or_value`). -/
inductive PfxVal where
  | str (s : String)
  | func (f : Unit → String)

/-- `call_or_value(obj)` from the source: call a callable, otherwise
return the value. -/
def call_or_value : PfxVal → String
  | .str s => s
  | .func f => f ()

/-- The syntactic call node recovered by `Source.executing(call_frame)`:
its line number and, for each positional argument of the call, the
verbatim source text extracted by `Source.get_text_with_indentation`
(the external `asttokens` collaborator). -/
structure CallNode where
  lineno : Nat
  argTexts : List String

/-- The per-invocation environment supplied by the external collaborators:
the recovered call node (`none` when `Source.executing(...).node is None`),
the caller's function name from `inspect.getframeinfo`, the file name
rendered by `os.path.basename` and by `os.path.realpath`, and the
timestamp string `datetime.now().strftime('%H:%M:%S.%f')[:-3]`. -/
structure CallEnv where
  node? : Option CallNode
  frameFunction : String
  frameBasename : String
  frameRealpath : String
  timeStr : String

/-- Python exceptions the pipeline can raise: `NoAvailableSourceError`
(caught inside `__call__`) and `IndexError` from indexing an empty
sequence (uncaught). -/
inductive PyExc where
  | noSource
  | indexError
deriving DecidableEq, Repr

/-- The pass-through result of `__call__`: `None`, a single value, or the
tuple of all argument values. -/
inductive PyResult (α : Type) where
  | pyNone
  | one (a : α)
  | tup (l : List α)
deriving DecidableEq, Repr

/-- The `PyCheckDebugger` instance state: the `__init__` fields plus the
class attributes `lineWrapWidth`, `_pairDelimiter` and
`context_delimiter`.  `α` is the type of Python values passed to the
debugger, `σ` the (opaque) type of the configured output sink. -/
structure PyCheckDebugger (α σ : Type) where
  enabled : Bool
  pfx : PfxVal
  output_function : σ
  arg_to_string_function : α → String
  include_context : Bool
  context_abs_path : Bool
  lineWrapWidth : Nat := 70
  pairDelimiter : String := ", "
  context_delimiter : String := "- "

/-- `NoAvailableSourceError.infoMessage` (the four adjacent string
literals concatenate without separators). -/
def infoMessage : String :=
  "Failed to access the underlying source code for analysis." ++
  "Is check() called in a REPL (e.g. from the command line)," ++
  "in a frozen application (e.g. packaged with PyInstaller)," ++
  "or has the underlying source code changed at runtime?"

/-! ## The report builder -/

/-- First step of `_construct_argument_output`: apply
`self.arg_to_string_function` to every value,
`pairs = [(arg, self.arg_to_string_function(val)) for arg, val in pairs]`. -/
def render_pairs {α σ : Type} (d : PyCheckDebugger α σ)
    (pairs : List (String × α)) : List (String × String) :=
  pairs.map (fun p => (p.1, d.arg_to_string_function p.2))

/-- `pair_strs`: a literal argument renders as its value alone, any
other argument as `'%s: ' % arg + val`.  `isLit` models the external
`is_literal` classifier (`ast.literal_eval`). -/
def pair_strs (isLit : String → Bool) (pairs : List (String × String)) :
    List String :=
  pairs.map (fun p => if isLit p.1 then p.2 else p.1 ++ ": " ++ p.2)

/-- `all_args_on_one_line = self._pairDelimiter.join(pair_strs)`. -/
def all_args_on_one_line {α σ : Type} (d : PyCheckDebugger α σ)
    (isLit : String → Bool) (pairs : List (String × String)) : String :=
  String.intercalate d.pairDelimiter (pair_strs isLit pairs)

/-- The wrapped (multi-line) layout branch of
`_construct_argument_output`: with a context the first line is
`prefix + context` and each pair is formatted under a space run of the
prefix's length; without a context each pair is formatted with an empty
prefix and the joined block is indented once with the real prefix. -/
def wrapped_output {α σ : Type} (d : PyCheckDebugger α σ)
    (pfx context : String) (pairs : List (String × String)) :
    Except PyExc String :=
  if context ≠ "" then
    match pairs.mapM (fun p => format_pair (spaces pfx.length) p.1 p.2) with
    | none => Except.error PyExc.indexError
    | some fps =>
      Except.ok (String.intercalate "\n" ((pfx ++ context) :: fps))
  else
    match pairs.mapM (fun p => format_pair "" p.1 p.2) with
    | none => Except.error PyExc.indexError
    | some arg_lines2 =>
      match indented_lines pfx (String.intercalate "\n" arg_lines2) with
      | none => Except.error PyExc.indexError
      | some lines => Except.ok (String.intercalate "\n" lines)

/-- `_construct_argument_output(self, prefix, context, pairs)`.
The Python locals are inlined: `multiline_args` is the first disjunct of
the layout condition, `first_line_too_long` the second;
`all_pairs.splitlines()[0]` raises `IndexError` when `all_pairs` is
empty. -/
def _construct_argument_output {α σ : Type} (d : PyCheckDebugger α σ)
    (isLit : String → Bool) (pfx context : String)
    (pairsIn : List (String × α)) : Except PyExc String :=
  match (pySplitlines (pfx ++ context ++
      (if context ≠ "" then d.context_delimiter else "") ++
      all_args_on_one_line d isLit (render_pairs d pairsIn))).head? with
  | none => Except.error PyExc.indexError
  | some first =>
    if (pySplitlines (all_args_on_one_line d isLit
          (render_pairs d pairsIn))).length > 1 ∨
        first.length > d.lineWrapWidth then
      wrapped_output d pfx context (render_pairs d pairsIn)
    else
      Except.ok (pfx ++ context ++
        (if context ≠ "" then d.context_delimiter else "") ++
        all_args_on_one_line d isLit (render_pairs d pairsIn))

/-- `pairs = list(zip(sanitized_arg_strs, args))` in `_format_args`. -/
def makePairs {α : Type} (node : CallNode) (args : List α) :
    List (String × α) :=
  node.argTexts.zip args

/-- `_format_args(self, call_frame, call_node, prefix, context, args)`:
the sanitized argument texts are those recovered on the call node. -/
def _format_args {α σ : Type} (d : PyCheckDebugger α σ) (node : CallNode)
    (pfx context : String) (isLit : String → Bool) (args : List α) :
    Except PyExc String :=
  _construct_argument_output d isLit pfx context (makePairs node args)

/-- `_format_context(self, call_frame, call_node)`. -/
def _format_context {α σ : Type} (d : PyCheckDebugger α σ) (env : CallEnv)
    (node : CallNode) : String :=
  (if d.context_abs_path then env.frameRealpath else env.frameBasename) ++
    ":" ++ toString node.lineno ++ " in " ++
    (if env.frameFunction ≠ "<module>" then env.frameFunction ++ "()"
     else env.frameFunction)

/-- `_format_time(self)`: `' at %s' % formatted`. -/
def _format_time (env : CallEnv) : String := " at " ++ env.timeStr

/-- `_format(self, call_frame, *args)`: raises `NoAvailableSourceError`
when the call node cannot be recovered; with no arguments emits the
context and the timestamp; otherwise blanks the context unless
`include_context` is set and formats the argument pairs. -/
def _format {α σ : Type} (d : PyCheckDebugger α σ) (env : CallEnv)
    (isLit : String → Bool) (args : List α) : Except PyExc String :=
  match env.node? with
  | none => Except.error PyExc.noSource
  | some node =>
    if args.isEmpty then
      Except.ok (call_or_value d.pfx ++ _format_context d env node ++
        _format_time env)
    else
      _format_args d node (call_or_value d.pfx)
        (if d.include_context then _format_context d env node else "")
        isLit args

/-- The pass-through return value of `__call__`: `None` for no
arguments, the argument itself for one, the argument tuple otherwise. -/
def passthroughOf {α : Type} : List α → PyResult α
  | [] => PyResult.pyNone
  | [a] => PyResult.one a
  | args => PyResult.tup args

/-- `__call__(self, *args)`.  The result pairs the list of strings passed
to `self.output_function` with the pass-through value; only
`NoAvailableSourceError` is caught, any other exception escapes. -/
def pyCall {α σ : Type} (d : PyCheckDebugger α σ) (env : CallEnv)
    (isLit : String → Bool) (args : List α) :
    Except PyExc (List String × PyResult α) :=
  match
    (if d.enabled then
      match _format d env isLit args with
      | Except.ok out => Except.ok [out]
      | Except.error PyExc.noSource =>
        Except.ok [call_or_value d.pfx ++ "Error: " ++ infoMessage]
      | Except.error e => Except.error e
    else Except.ok ([] : List String)) with
  | Except.error e => Except.error e
  | Except.ok outs => Except.ok (outs, passthroughOf args)

/-! ## The session operations -/

/-- `enable(self)`. -/
def enable {α σ : Type} (d : PyCheckDebugger α σ) : PyCheckDebugger α σ :=
  { d with enabled := true }

/-- `disable(self)`. -/
def disable {α σ : Type} (d : PyCheckDebugger α σ) : PyCheckDebugger α σ :=
  { d with enabled := false }

/-- `configure_output(self, prefix, output_function,
arg_to_string_function, include_context, context_abs_path)`: `_absent`
defaults are modelled as `none`; a call with every field absent raises
`TypeError`, otherwise each provided field is assigned in order. -/
def configure_output {α σ : Type} (d : PyCheckDebugger α σ)
    (pfx? : Option PfxVal) (output_function? : Option σ)
    (arg_to_string_function? : Option (α → String))
    (include_context? : Option Bool) (context_abs_path? : Option Bool) :
    Except String (PyCheckDebugger α σ) :=
  if pfx?.isNone && output_function?.isNone &&
      arg_to_string_function?.isNone && include_context?.isNone &&
      context_abs_path?.isNone then
    Except.error "configure_output() missing at least one argument"
  else
    let d1 := match pfx? with
      | some p => { d with pfx := p }
      | none => d
    let d2 := match output_function? with
      | some f => { d1 with output_function := f }
      | none => d1
    let d3 := match arg_to_string_function? with
      | some f => { d2 with arg_to_string_function := f }
      | none => d2
    let d4 := match include_context? with
      | some b => { d3 with include_context := b }
      | none => d3
    let d5 := match context_abs_path? with
      | some b => { d4 with context_abs_path := b }
      | none => d4
    Except.ok d5

/-! ## The value stringifier registry -/

/-- The `singledispatch` registry reached through `single_dispatch`:
a mapping from a runtime type (abstracted as `Nat`) to an override
stringifier. -/
def Registry (α : Type) : Type := Nat → Option (α → String)

/-- `argument_to_string.register(cls, func)`: `registry[cls] = func`. -/
def regRegister {α : Type} (r : Registry α) (t : Nat) (f : α → String) :
    Registry α :=
  fun u => if u = t then some f else r u

/-- `argument_to_string.unregister(cls)`: `del registry[cls]` raises
`KeyError` for an absent key, then the dispatch cache is cleared (the
cache is modelled as transparent). -/
def regUnregister {α : Type} (r : Registry α) (t : Nat) :
    Except String (Registry α) :=
  if (r t).isSome then
    Except.ok (fun u => if u = t then none else r u)
  else Except.error "KeyError"

/-- Invoking the dispatched `argument_to_string`: the override registered
for the value's runtime type, or the default implementation. -/
def single_dispatch_call {α : Type} (r : Registry α)
    (default : α → String) (typeOf : α → Nat) (v : α) : String :=
  match r (typeOf v) with
  | some f => f v
  | none => default v

/-- One register/unregister cycle on type `t`: the registry after
`register(t, f)` followed by `unregister(t)`. -/
def registryCycle {α : Type} (t : Nat) (f : α → String) (r : Registry α) :
    Registry α :=
  fun u => if u = t then none else regRegister r t f u

/-! ## Concrete instances used by the closed witnesses -/

/-- A session with the default configuration over natural-number values
and a unit output sink. -/
def dEx : PyCheckDebugger Nat Unit :=
  { enabled := true, pfx := PfxVal.str "check| ", output_function := (),
    arg_to_string_function := fun n => toString n, include_context := false,
    context_abs_path := false }

/-- The same session in the disabled state. -/
def dExOff : PyCheckDebugger Nat Unit := { dEx with enabled := false }

/-- A literal classifier rejecting everything. -/
def isLitEx : String → Bool := fun _ => false

/-- A call node with two recovered argument texts. -/
def nodeEx : CallNode := { lineno := 3, argTexts := ["x", "y"] }

/-- An environment where call-site resolution failed. -/
def envNoSource : CallEnv :=
  { node? := none, frameFunction := "main", frameBasename := "a.py",
    frameRealpath := "/tmp/a.py", timeStr := "12:00:00.000" }

/-- An environment where call-site resolution succeeded. -/
def envEx : CallEnv := { envNoSource with node? := some nodeEx }

/-- The call node resolved for a star-unpacking call `check(*lst)`: the
single positional argument expression `*lst`, however many values the
unpacking passes. -/
def nodeStar : CallNode := { lineno := 3, argTexts := ["*lst"] }

/-- An environment resolving to the star-unpacking call node. -/
def envStar : CallEnv := { envNoSource with node? := some nodeStar }

/-- An empty override registry. -/
def regEx : Registry Nat := fun _ => none

/-! ## The claims -/

/-- C1: every invocation of the entry point that returns normally returns
the unit value for zero arguments, the single argument for one, and the
ordered tuple of all arguments for more than one, in the enabled and in
the disabled state alike. -/
theorem call_passthrough {α σ : Type} (d : PyCheckDebugger α σ)
    (env : CallEnv) (isLit : String → Bool) (args : List α)
    (res : List String × PyResult α)
    (h : pyCall d env isLit args = Except.ok res) :
    res.2 = match args with
      | [] => PyResult.pyNone
      | [a] => PyResult.one a
      | l => PyResult.tup l := by
  unfold pyCall at h
  split at h
  · exact absurd h (by simp)
  · rename_i outs heq
    injection h with h2
    subst h2
    show passthroughOf args = _
    cases args with
    | nil => rfl
    | cons a t =>
      cases t with
      | nil => rfl
      | cons b u => rfl

theorem call_passthrough_witness :
    (([], PyResult.tup [5, 7]) : List String × PyResult Nat).2 =
      match [5, 7] with
      | [] => PyResult.pyNone
      | [a] => PyResult.one a
      | l => PyResult.tup l :=
  call_passthrough dExOff envNoSource isLitEx [5, 7]
    ([], PyResult.tup [5, 7]) rfl

/-- C2: in the enabled state, when call-site resolution fails the emitted
report is exactly the configured prefix, then `Error: `, then the fixed
explanatory message; pair construction is skipped, no exception escapes
and the pass-through value is still returned. -/
theorem call_no_source_error_report {α σ : Type} (d : PyCheckDebugger α σ)
    (env : CallEnv) (isLit : String → Bool) (args : List α)
    (hen : d.enabled = true) (hn : env.node? = none) :
    pyCall d env isLit args =
      Except.ok ([call_or_value d.pfx ++ "Error: " ++ infoMessage],
        passthroughOf args) := by
  simp [pyCall, _format, hen, hn]

theorem call_no_source_error_report_witness :
    pyCall dEx envNoSource isLitEx [1] =
      Except.ok ([call_or_value dEx.pfx ++ "Error: " ++ infoMessage],
        passthroughOf [1]) :=
  call_no_source_error_report dEx envNoSource isLitEx [1] rfl rfl

/-- C3, counterexample: for a star-unpacking call `check(*lst)` passing
three values, the resolved call node carries a single argument text, the
zip in `_format_args` truncates to one pair, and a normal (non-error)
report built from that one pair is emitted — a report with pairs for only
some of the argument values. -/
theorem partial_pairs_counterexample :
    (makePairs nodeStar [1, 2, 3]).length ≠ ([1, 2, 3] : List Nat).length ∧
    _format dEx envStar isLitEx [1, 2, 3] =
      Except.ok "check| *lst: 1" :=
  ⟨by decide, by rfl⟩

/-- C3 (amended to resolved call nodes carrying one argument expression
text per argument value, i.e. plain positional calls without
star-unpacking): the pair list zipped in `_format_args` has exactly one
pair per argument, in left-to-right order (its values are the argument
list and its texts the recovered texts); and when the node cannot be
recovered at all, `_format` fails over to the no-source error instead of
producing partial pairs. -/
theorem pairs_match_arguments {α σ : Type} (d : PyCheckDebugger α σ)
    (env : CallEnv) (isLit : String → Bool) (node : CallNode)
    (args : List α) (h : node.argTexts.length = args.length) :
    (makePairs node args).length = args.length ∧
    (makePairs node args).map Prod.snd = args ∧
    (makePairs node args).map Prod.fst = node.argTexts ∧
    (env.node? = none →
      _format d env isLit args = Except.error PyExc.noSource) := by
  refine ⟨?_, ?_, ?_, ?_⟩
  · simp [makePairs, h]
  · exact List.map_snd_zip _ _ (le_of_eq h.symm)
  · exact List.map_fst_zip _ _ (le_of_eq h)
  · intro hn
    simp [_format, hn]

theorem pairs_match_arguments_witness :
    (makePairs nodeEx [10, 20]).length = [10, 20].length ∧
    (makePairs nodeEx [10, 20]).map Prod.snd = [10, 20] ∧
    (makePairs nodeEx [10, 20]).map Prod.fst = nodeEx.argTexts ∧
    (envNoSource.node? = none →
      _format dEx envNoSource isLitEx [10, 20] =
        Except.error PyExc.noSource) :=
  pairs_match_arguments dEx envNoSource isLitEx nodeEx [10, 20] rfl

/-- C4: in the disabled state the output sink is never invoked (no string
is passed to it) while the pass-through value is computed exactly as in
the enabled state. -/
theorem call_disabled_no_output {α σ : Type} (d : PyCheckDebugger α σ)
    (env : CallEnv) (isLit : String → Bool) (args : List α)
    (h : d.enabled = false) :
    pyCall d env isLit args = Except.ok ([], passthroughOf args) := by
  simp [pyCall, h]

theorem call_disabled_no_output_witness :
    pyCall dExOff envEx isLitEx [3] =
      Except.ok ([], passthroughOf [3]) :=
  call_disabled_no_output dExOff envEx isLitEx [3] rfl

/-- C5: `configure_output` fails with an argument error exactly when no
field is provided; otherwise it returns the session with precisely the
provided fields replaced and every other field — including the enabled
flag — unchanged. -/
theorem configure_output_spec {α σ : Type} (d : PyCheckDebugger α σ)
    (pfx? : Option PfxVal) (output_function? : Option σ)
    (arg_to_string_function? : Option (α → String))
    (include_context? : Option Bool) (context_abs_path? : Option Bool) :
    configure_output d pfx? output_function? arg_to_string_function?
        include_context? context_abs_path? =
      if pfx?.isNone && output_function?.isNone &&
          arg_to_string_function?.isNone && include_context?.isNone &&
          context_abs_path?.isNone then
        Except.error "configure_output() missing at least one argument"
      else
        Except.ok
          { enabled := d.enabled
            pfx := pfx?.getD d.pfx
            output_function := output_function?.getD d.output_function
            arg_to_string_function :=
              arg_to_string_function?.getD d.arg_to_string_function
            include_context := include_context?.getD d.include_context
            context_abs_path := context_abs_path?.getD d.context_abs_path
            lineWrapWidth := d.lineWrapWidth
            pairDelimiter := d.pairDelimiter
            context_delimiter := d.context_delimiter } := by
  cases pfx? <;> cases output_function? <;> cases arg_to_string_function? <;>
    cases include_context? <;> cases context_abs_path? <;> rfl

/-- C8: registering an override for a type and unregistering it again
succeeds and restores the default-converter output for every value of
that type, no matter how many register/unregister cycles are run. -/
theorem registry_round_trip {α : Type} (r : Registry α) (t : Nat)
    (f : α → String) (dflt : α → String) (typeOf : α → Nat) (v : α)
    (hv : typeOf v = t) (n : Nat) :
    regUnregister (regRegister r t f) t =
      Except.ok (registryCycle t f r) ∧
    single_dispatch_call ((registryCycle t f)^[n + 1] r) dflt typeOf v =
      dflt v := by
  constructor
  · have hs : ((regRegister r t f) t).isSome := by simp [regRegister]
    unfold regUnregister
    rw [if_pos hs]
    rfl
  · rw [Function.iterate_succ_apply']
    simp [single_dispatch_call, registryCycle, hv]

theorem registry_round_trip_witness :
    regUnregister (regRegister regEx 0 (fun _ => "custom")) 0 =
      Except.ok (registryCycle 0 (fun _ => "custom") regEx) ∧
    single_dispatch_call
        ((registryCycle 0 (fun _ => "custom"))^[2 + 1] regEx)
        (fun n => toString n) (fun _ => 0) 3 = toString 3 :=
  registry_round_trip regEx 0 (fun _ => "custom") (fun n => toString n)
    (fun _ => 0) 3 rfl 2

/-- C9: a zero-argument invocation that resolves its call site reports the
prefix, the full call-site context and the timestamp, whatever the value
of the include-context flag — the flag therefore only affects reports of
invocations with arguments. -/
theorem zero_arg_report_contains_context {α σ : Type}
    (d : PyCheckDebugger α σ) (env : CallEnv) (isLit : String → Bool)
    (b : Bool) (node : CallNode) (hn : env.node? = some node) :
    _format { d with include_context := b } env isLit ([] : List α) =
      Except.ok (call_or_value d.pfx ++ _format_context d env node ++
        _format_time env) := by
  unfold _format
  rw [hn]
  rfl

theorem zero_arg_report_contains_context_witness :
    _format { dEx with include_context := true } envEx isLitEx
        ([] : List Nat) =
      Except.ok (call_or_value dEx.pfx ++ _format_context dEx envEx nodeEx ++
        _format_time envEx) :=
  zero_arg_report_contains_context dEx envEx isLitEx true nodeEx rfl

/-- C10: `enable` and `disable` change only the enabled flag; and when the
session is in the enabled state, `disable` followed by `enable` restores
the original state. -/
theorem enable_disable_frame {α σ : Type} (d : PyCheckDebugger α σ) :
    ((disable d).pfx, (disable d).output_function,
      (disable d).arg_to_string_function, (disable d).include_context,
      (disable d).context_abs_path) =
      (d.pfx, d.output_function, d.arg_to_string_function,
        d.include_context, d.context_abs_path) ∧
    ((enable d).pfx, (enable d).output_function,
      (enable d).arg_to_string_function, (enable d).include_context,
      (enable d).context_abs_path) =
      (d.pfx, d.output_function, d.arg_to_string_function,
        d.include_context, d.context_abs_path) ∧
    (disable d).enabled = false ∧
    (enable d).enabled = true ∧
    (d.enabled = true → enable (disable d) = d) := by
  refine ⟨rfl, rfl, rfl, rfl, ?_⟩
  intro h
  show ({ d with enabled := true } : PyCheckDebugger α σ) = d
  rw [← h]

theorem enable_disable_frame_witness : enable (disable dEx) = dEx :=
  (enable_disable_frame dEx).2.2.2.2 rfl

/-- C10, counterexample: for a session in the disabled state, `disable`
followed by `enable` does not restore the original state. -/
theorem enable_after_disable_not_original :
    enable (disable dExOff) ≠ dExOff := by
  intro h
  have h2 := congrArg PyCheckDebugger.enabled h
  simp [enable, disable, dExOff, dEx] at h2

/-- C6: whenever `_construct_argument_output` indexes a nonempty candidate
first line, the wrapped multi-line layout is chosen exactly when the
joined candidate spans several physical lines or the first physical line
of prefix + context + delimiter + candidate exceeds the configured wrap
width; otherwise the single joined line with prefix and context prepended
is emitted. -/
theorem construct_layout_decision {α σ : Type} (d : PyCheckDebugger α σ)
    (isLit : String → Bool) (pfx context : String)
    (pairsIn : List (String × α))
    (hne : pfx ++ context ++
      (if context ≠ "" then d.context_delimiter else "") ++
      all_args_on_one_line d isLit (render_pairs d pairsIn) ≠ "") :
    _construct_argument_output d isLit pfx context pairsIn =
      if (pySplitlines
            (all_args_on_one_line d isLit (render_pairs d pairsIn))).length
              > 1 ∨
          ((pySplitlines (pfx ++ context ++
            (if context ≠ "" then d.context_delimiter else "") ++
            all_args_on_one_line d isLit (render_pairs d pairsIn))).headD
              "").length > d.lineWrapWidth then
        wrapped_output d pfx context (render_pairs d pairsIn)
      else
        Except.ok (pfx ++ context ++
          (if context ≠ "" then d.context_delimiter else "") ++
          all_args_on_one_line d isLit (render_pairs d pairsIn)) := by
  obtain ⟨l, ls, hl⟩ :=
    List.exists_cons_of_ne_nil (pySplitlines_ne_nil _ hne)
  unfold _construct_argument_output
  rw [hl]
  rfl

theorem construct_layout_decision_witness :
    _construct_argument_output dEx isLitEx "check| " "" [("x", 5)] =
      if (pySplitlines
            (all_args_on_one_line dEx isLitEx
              (render_pairs dEx [("x", 5)]))).length > 1 ∨
          ((pySplitlines ("check| " ++ "" ++
            (if "" ≠ "" then dEx.context_delimiter else "") ++
            all_args_on_one_line dEx isLitEx
              (render_pairs dEx [("x", 5)]))).headD "").length >
            dEx.lineWrapWidth then
        wrapped_output dEx "check| " "" (render_pairs dEx [("x", 5)])
      else
        Except.ok ("check| " ++ "" ++
          (if "" ≠ "" then dEx.context_delimiter else "") ++
          all_args_on_one_line dEx isLitEx (render_pairs dEx [("x", 5)])) :=
  construct_layout_decision dEx isLitEx "check| " "" [("x", 5)] (by decide)

/-- The claim's trigger for the extra alignment shift in `format_pair`:
the value text begins and ends with matching quote characters. -/
def looks_like_string_spec (v : String) : Bool :=
  match v.data.head?, v.data.getLast? with
  | some c0, some cl => c0 == cl && (c0 == squote || c0 == dquote)
  | _, _ => false

/-- C7, counterexample: on an empty value text `format_pair` raises
`IndexError` instead of laying out the pair. -/
theorem format_pair_empty_value_raises : format_pair "p" "x" "" = none := by
  rfl

/-- C7 (amended to nonempty texts): for every prefix and nonempty
expression and value texts, `format_pair` lays the expression text out
with `indented_lines`, derives the value prefix from the last laid-out
expression line followed by `: `, shifts the later value lines by one
column exactly when the value begins and ends with matching quote
characters, lays the value out with the derived prefix and joins the
expression block (without its last line) with the value block. -/
theorem format_pair_nonempty_characterization (pfx arg value : String)
    (ha : arg ≠ "") (hv : value ≠ "") :
    ∃ argLines valueLines,
      indented_lines pfx arg = some argLines ∧
      indented_lines (argLines.getLastD "" ++ ": ")
        (if looks_like_string_spec value
         then pfx_lines_after_first " " value else value) =
        some valueLines ∧
      format_pair pfx arg value =
        some (String.intercalate "\n" (argLines.dropLast ++ valueLines)) := by
  obtain ⟨argLines, hal⟩ := indented_lines_of_ne_empty pfx arg ha
  have hvd : value.data ≠ [] :=
    fun hd => hv (string_eq_empty_of_data_nil value hd)
  obtain ⟨c0, cs, hcs⟩ := List.exists_cons_of_ne_nil hvd
  have h0 : value.data.head? = some c0 := by rw [hcs]; rfl
  obtain ⟨cl, hcl⟩ : ∃ cl, value.data.getLast? = some cl := by
    rw [hcs]
    exact Option.isSome_iff_exists.mp (by simp)
  have hv2ne : (if looks_like_string_spec value
      then pfx_lines_after_first " " value else value) ≠ "" := by
    split
    · exact pfx_lines_after_first_ne_empty " " value hv
    · exact hv
  obtain ⟨valueLines, hvl⟩ :=
    indented_lines_of_ne_empty (argLines.getLastD "" ++ ": ") _ hv2ne
  refine ⟨argLines, valueLines, hal, hvl, ?_⟩
  have hcond : ((c0 = squote ∧ cl = squote) ∨ (c0 = dquote ∧ cl = dquote)) ↔
      looks_like_string_spec value = true := by
    unfold looks_like_string_spec
    rw [h0, hcl]
    simp only [Bool.and_eq_true, Bool.or_eq_true, beq_iff_eq]
    constructor
    · rintro (⟨h1, h2⟩ | ⟨h1, h2⟩) <;> subst h1 <;> subst h2 <;> simp
    · rintro ⟨h1, h2 | h2⟩ <;> subst h1 <;> subst h2 <;> simp
  have hsame : (if (c0 = squote ∧ cl = squote) ∨ (c0 = dquote ∧ cl = dquote)
      then pfx_lines_after_first " " value else value) =
      (if looks_like_string_spec value
       then pfx_lines_after_first " " value else value) := by
    by_cases hls : looks_like_string_spec value = true
    · rw [if_pos (hcond.mpr hls), if_pos hls]
    · rw [if_neg (fun hc => hls (hcond.mp hc)), if_neg hls]
  simp only [format_pair, hal, h0, hcl, hsame, hvl]

theorem format_pair_nonempty_characterization_witness :
    ∃ argLines valueLines,
      indented_lines "p| " "x" = some argLines ∧
      indented_lines (argLines.getLastD "" ++ ": ")
        (if looks_like_string_spec "5"
         then pfx_lines_after_first " " "5" else "5") = some valueLines ∧
      format_pair "p| " "x" "5" =
        some (String.intercalate "\n" (argLines.dropLast ++ valueLines)) :=
  format_pair_nonempty_characterization "p| " "x" "5" (by decide) (by decide)
